import Mathlib

/-!
Verification of the sheSafe Device Presence State Engine
(src/backend/backend.py, src/backend/main.py).

The backing Redis store is embedded as an explicit `Store` value:
  - latest   : the "device:latest:<device>" keys (JSON records),
  - history  : the "device:history:<device>" capped lists,
  - tokens   : the "token:<token>" one-time-token keys,
  - quarantine : the "unmapped:links" list.
The key namespaces are disjoint prefixes in Redis, so they are modelled as
separate fields.  JSON records are embedded as structures of optional
fields (a missing key and a key stored with JSON null both become `none`;
the handlers only ever read these fields through dict.get, which treats the
two the same way).  Coordinates are carried through unchanged by every
handler (no arithmetic is ever performed on them), so they are embedded as
exact rationals.  Wall-clock time, TTL expiry and the HTTP transport layer
are outside the embedded state: timestamps and server-generated random
values enter the model as explicit parameters.
-/

/-- A stored latest record (the JSON value at device:latest:<device>).
Fields mirror every key written by main.py. -/
structure Record where
  lat : Option Rat := none
  lon : Option Rat := none
  timestamp : Option String := none
  status : Option String := none
  last_sms : Option String := none
  sender : Option String := none
  audio_url : Option String := none
  audio_ts : Option String := none
deriving DecidableEq

/-- One JSON entry of a device history list (device:history:<device>). -/
structure HistoryEntry where
  event : String
  ts : String
  sender : Option String := none
  lat : Option Rat := none
  lon : Option Rat := none
  path : Option String := none
deriving DecidableEq

/-- One JSON entry of the unmapped:links quarantine list; `sender` embeds
the "from" key of the pushed JSON object. -/
structure UnmappedEntry where
  raw : String
  sender : Option String := none
  ts : String
  token : Option String := none
deriving DecidableEq

/-- The Redis store state visible to the backend. -/
structure Store where
  latest : String → Option Record
  history : String → List HistoryEntry
  tokens : String → Option String
  quarantine : List UnmappedEntry

/-- A store with no keys set. -/
def emptyStore : Store :=
  { latest := fun _ => none
    history := fun _ => []
    tokens := fun _ => none
    quarantine := [] }

/-- RedisClient.set_latest: SET device:latest:<device>. -/
def set_latest (st : Store) (device : String) (payload : Record) : Store :=
  { st with latest := fun d => if d = device then some payload else st.latest d }

/-- RedisClient.get_latest: GET device:latest:<device>. -/
def get_latest (st : Store) (device : String) : Option Record :=
  st.latest device

/-- RedisClient.push_history: LPUSH then LTRIM 0 (cap-1).  Redis trim
index cap-1 with cap = 0 is -1, which keeps the whole list, hence the
cap = 0 branch; every caller in main.py uses the default cap 1000. -/
def push_history (st : Store) (device : String) (payload : HistoryEntry)
    (cap : Nat := 1000) : Store :=
  { st with history := fun d =>
      if d = device then
        if cap = 0 then payload :: st.history d
        else (payload :: st.history d).take cap
      else st.history d }

/-- RedisClient.create_token: SET token:<token> = device, EX ttl.  The
generated uuid hex enters as the `token` parameter; TTL expiry is outside
the embedded state. -/
def create_token (st : Store) (device : String) (token : String) : String × Store :=
  (token, { st with tokens := fun t => if t = token then some device else st.tokens t })

/-- RedisClient.consume_token: the atomic Lua GET+DEL.  Returns the bound
device (if any) and the store with the mapping removed. -/
def consume_token (st : Store) (token : String) : Option String × Store :=
  match st.tokens token with
  | none => (none, st)
  | some v =>
      (some v, { st with tokens := fun t => if t = token then none else st.tokens t })

/-- A character of the RE_TOKEN capture class [A-Za-z0-9_\-]. -/
def isTokChar (c : Char) : Bool :=
  (c.isAlpha || c.isDigit) || c = '_' || c = '-'

/-- RE_TOKEN.search: the Python regex [?&]token=([A-Za-z0-9_\-]+) applied
to the SMS body.  re.search returns the leftmost position at which the
pattern matches; the capture group is the maximal run of token characters
after "token=" (at least one). -/
def re_token_search : List Char → Option String
  | [] => none
  | c :: cs =>
      if c = '?' ∨ c = '&' then
        match cs with
        | 't' :: 'o' :: 'k' :: 'e' :: 'n' :: '=' :: rest =>
            match rest.takeWhile isTokChar with
            | [] => re_token_search cs
            | g => some (String.mk g)
        | _ => re_token_search cs
      else re_token_search cs

/-- Result of the /api/webhook/sms handler after secret verification:
noToken  = the JSON response with ok False, reason "no token in SMS";
unknownToken = ok False, reason "unknown token";
okDevice = ok True with the matched device. -/
inductive SmsResult where
  | noToken
  | unknownToken
  | okDevice (device : String)
deriving DecidableEq

/-- webhook_sms (src/backend/main.py, /api/webhook/sms), after the webhook
secret check and payload extraction (transport concerns).  `storeFails`
embeds the one store call the handler wraps in try/except: when the GET of
the token key raises, the except branch sets device = None. -/
def webhook_sms (st : Store) (raw_sms : String) (sender : Option String)
    (ts : String) (storeFails : Bool) : SmsResult × Store :=
  match re_token_search raw_sms.data with
  | none =>
      (.noToken,
        { st with quarantine :=
            { raw := raw_sms, sender := sender, ts := ts } :: st.quarantine })
  | some token =>
      match if storeFails then none else st.tokens token with
      | none =>
          (.unknownToken,
            { st with quarantine :=
                { raw := raw_sms, sender := sender, ts := ts,
                  token := some token } :: st.quarantine })
      | some device =>
          let latest := (get_latest st device).getD {}
          let latest :=
            { latest with
                lat := latest.lat, lon := latest.lon,
                timestamp := some ts, status := some "active",
                last_sms := some raw_sms, sender := sender }
          let st1 := set_latest st device latest
          let st2 := push_history st1 device
            { event := "sos_via_link", ts := ts, sender := sender } 1000
          (.okDevice device, st2)

/-- The /api/location response body. -/
structure LocationResponse where
  device : String
  lat : Option Rat := none
  lon : Option Rat := none
  timestamp : Option String := none
  status : String
  audio_url : Option String := none
  audio_ts : Option String := none
deriving DecidableEq

/-- get_location (src/backend/main.py, GET /api/location): `none` is the
404 "device not found" response.  float(rec["lat"]) is the identity on the
embedded exact coordinates. -/
def get_location (st : Store) (device : String) : Option LocationResponse :=
  match get_latest st device with
  | none => none
  | some r =>
      some { device := device, lat := r.lat, lon := r.lon,
             timestamp := r.timestamp, status := r.status.getD "active",
             audio_url := r.audio_url, audio_ts := r.audio_ts }

/-- resolve_token (src/backend/main.py, GET /api/resolve-token): plain GET
of the token key, `none` is the 404 response. -/
def resolve_token (st : Store) (token : String) : Option (String × Record) :=
  match st.tokens token with
  | none => none
  | some device => some (device, (get_latest st device).getD {})

/-- Result of POST /api/mark-safe: notFound = HTTP 404 "device not found",
invalidToken = HTTP 401 "invalid auth token", ok = the success body. -/
inductive MarkSafeResult where
  | notFound
  | invalidToken
  | ok
deriving DecidableEq

/-- The tail of mark_safe once authorization has passed: set status and
timestamp, write back, append the marked_safe history entry. -/
def finish_mark_safe (st : Store) (device : String) (r0 : Record)
    (now : String) : MarkSafeResult × Store :=
  let r1 := { r0 with status := some "safe", timestamp := some now }
  let st1 := set_latest st device r1
  (.ok, push_history st1 device { event := "marked_safe", ts := now } 1000)

/-- mark_safe (src/backend/main.py, POST /api/mark-safe).  `now` is the
now_iso() wall-clock value.  Python `if req.auth_token:` is truthiness:
None and the empty string both skip the token check.  When consume_token
returns a non-matching device the 401 is raised after the atomic delete,
so the invalidToken branch keeps the consumed-token store. -/
def mark_safe (st : Store) (device : String) (auth_token : Option String)
    (now : String) : MarkSafeResult × Store :=
  match get_latest st device with
  | none => (.notFound, st)
  | some r0 =>
      match auth_token with
      | none => finish_mark_safe st device r0 now
      | some t =>
          if t = "" then finish_mark_safe st device r0 now
          else
            let res := consume_token st t
            if res.1 ≠ some device then (.invalidToken, res.2)
            else finish_mark_safe res.2 device r0 now

/-- _safe_filename: re.sub replacing every character outside
[A-Za-z0-9_.-] with an underscore. -/
def safe_filename (name : String) : String :=
  String.mk (name.data.map fun c =>
    if (c.isAlpha || c.isDigit) || c = '_' || c = '.' || c = '-' then c else '_')

/-- pathlib suffix: on the final path component, the substring from the
last dot, provided that dot is neither the first nor the last character of
the component; otherwise the empty string. -/
def path_suffix (filename : String) : String :=
  let name := (filename.data.reverse.takeWhile (fun c => c ≠ '/')).reverse
  match name.reverse.findIdx? (fun c => c = '.') with
  | none => ""
  | some j =>
      let i := name.length - 1 - j
      if 0 < i ∧ i < name.length - 1 then String.mk (name.drop i) else ""

/-- The extension chosen for a saved audio file: Path(filename).suffix,
defaulted to .webm, lower-cased, and forced to .webm when outside the
allow-list.  An empty filename falls back to the literal "audio". -/
def file_ext (filename : String) : String :=
  let filename := if filename = "" then "audio" else filename
  let ext := path_suffix filename
  let ext := if ext = "" then ".webm" else ext
  let ext := String.mk (ext.data.map Char.toLower)
  if ext = ".webm" ∨ ext = ".wav" ∨ ext = ".mp3" ∨ ext = ".ogg" ∨ ext = ".m4a"
  then ext else ".webm"

/-- upload_with_location (src/backend/main.py, POST /api/upload), after
the X-Device-Token check (transport).  `ts` is the resolved timestamp
(form field or now_iso()).  `file` is the optional upload, carried as its
client filename; `unique` is the secrets.token_urlsafe(8) value generated
for this invocation — a fresh random string per request.  The model takes
the disk write to succeed (its failure path aborts with HTTP 500 before
any latest write). -/
def upload_with_location (st : Store) (device : String) (lat lon : Option Rat)
    (ts : String) (file : Option String) (unique : String) : Store :=
  let latest := (get_latest st device).getD {}
  let latest := { latest with timestamp := some ts,
                              status := some (latest.status.getD "active") }
  match lat, lon with
  | some la, some lo =>
      let latest := { latest with lat := some la, lon := some lo }
      let st := push_history st device
        { event := "location_update", ts := ts, lat := some la, lon := some lo } 1000
      (match file with
       | none => set_latest st device latest
       | some filename =>
           let audio_rel :=
             "/static/audio/" ++ safe_filename device ++ "_" ++ unique ++ file_ext filename
           let latest := { latest with audio_url := some audio_rel, audio_ts := some ts }
           let st := push_history st device
             { event := "audio_upload", ts := ts, path := some audio_rel } 1000
           set_latest st device latest)
  | _, _ =>
      (match file with
       | none => set_latest st device latest
       | some filename =>
           let audio_rel :=
             "/static/audio/" ++ safe_filename device ++ "_" ++ unique ++ file_ext filename
           let latest := { latest with audio_url := some audio_rel, audio_ts := some ts }
           let st := push_history st device
             { event := "audio_upload", ts := ts, path := some audio_rel } 1000
           set_latest st device latest)

/-- The lat field of the stored latest record of a device. -/
def latest_lat (st : Store) (device : String) : Option Rat :=
  (st.latest device).bind fun r => r.lat

/-- The lon field of the stored latest record of a device. -/
def latest_lon (st : Store) (device : String) : Option Rat :=
  (st.latest device).bind fun r => r.lon

/-- The status field of the stored latest record of a device. -/
def latest_status (st : Store) (device : String) : Option String :=
  (st.latest device).bind fun r => r.status

/-- Folding a sequence of push_history calls for one device. -/
def push_all (st : Store) (device : String) (ps : List HistoryEntry)
    (cap : Nat) : Store :=
  ps.foldl (fun s p => push_history s device p cap) st

/-- The device a free-text event resolves to: the extracted token's bound
device, when both exist (the non-destructive lookup path of webhook_sms). -/
def webhook_device_lookup (st : Store) (raw : String) : Option String :=
  (re_token_search raw.data).bind st.tokens

/-- Example record used to instantiate hypothesised theorems. -/
def exRec : Record :=
  { lat := some 12, lon := some 77, timestamp := some "T0", status := some "active" }

/-- Example store: device D1 present with coordinates, token tok1 bound to D1. -/
def exStore : Store :=
  { latest := fun d => if d = "D1" then some exRec else none
    history := fun _ => []
    tokens := fun t => if t = "tok1" then some "D1" else none
    quarantine := [] }

/-- Example store whose device D1 has already been marked safe. -/
def exSafeStore : Store :=
  { latest := fun d =>
      if d = "D1" then
        some { lat := some 1, lon := some 2, timestamp := some "T0",
               status := some "safe" }
      else none
    history := fun _ => []
    tokens := fun _ => none
    quarantine := [] }

/-- Taking m of a list whose tail part was already truncated to n ≥ m
gives the same as taking m of the untruncated list. -/
theorem take_append_take {α : Type} (xs : List α) (ys : List α) (m n : Nat)
    (h : m ≤ n) : (xs ++ ys.take n).take m = (xs ++ ys).take m := by
  induction xs generalizing m n with
  | nil =>
      simp only [List.nil_append, List.take_take]
      rw [Nat.min_eq_left h]
  | cons x xs ih =>
      cases m with
      | zero => simp
      | succ k =>
          simp only [List.cons_append, List.take_succ_cons]
          rw [ih k n (Nat.le_of_succ_le h)]

/-- Folded pushes realise a single truncated prepend of the reversed
push sequence, provided the starting list is within the cap. -/
theorem push_all_history (device : String) (cap : Nat) (hcap : 1 ≤ cap)
    (ps : List HistoryEntry) (st : Store)
    (hlen : (st.history device).length ≤ cap) :
    (push_all st device ps cap).history device
      = (ps.reverse ++ st.history device).take cap := by
  induction ps generalizing st with
  | nil => simp [push_all, List.take_of_length_le hlen]
  | cons p ps ih =>
      have hcap0 : cap ≠ 0 := by omega
      have h1 : (push_history st device p cap).history device
          = (p :: st.history device).take cap := by
        simp [push_history, hcap0]
      have h2 : ((push_history st device p cap).history device).length ≤ cap := by
        rw [h1]; simp
      have hstep : push_all st device (p :: ps) cap
          = push_all (push_history st device p cap) device ps cap := by
        simp [push_all]
      rw [hstep, ih (push_history st device p cap) h2, h1,
          take_append_take ps.reverse (p :: st.history device) cap cap (Nat.le_refl cap)]
      simp

/-- A successful webhook_sms run means the body carried a token bound to
the returned device. -/
theorem webhook_ok_elim (st : Store) (raw : String) (sender : Option String)
    (ts d : String)
    (hok : (webhook_sms st raw sender ts false).1 = .okDevice d) :
    ∃ tok, re_token_search raw.data = some tok ∧ st.tokens tok = some d := by
  cases hf : re_token_search raw.data with
  | none => simp [webhook_sms, hf] at hok
  | some tok =>
      cases hm : st.tokens tok with
      | none => simp [webhook_sms, hf, hm] at hok
      | some dev =>
          have hd : dev = d := by simpa [webhook_sms, hf, hm] using hok
          subst hd
          exact ⟨tok, rfl, hm⟩

/-- C4: for every device and every sequence of push_history calls with a
positive cap (default 1000), the history stays within the cap; after
pushing cap + k entries (k ≥ 1) into a fresh history, exactly cap entries
survive and they are the cap most recently pushed, newest first
((ps.drop k).reverse is the last cap pushes in reverse push order). -/
theorem push_history_cap_bound (st : Store) (device : String) (cap k : Nat)
    (ps qs : List HistoryEntry)
    (hcap : 1 ≤ cap) (hinit : st.history device = [])
    (hlen : ps.length = cap + k) (_hk : 1 ≤ k) :
    ((push_all st device qs cap).history device).length ≤ cap
    ∧ (push_all st device ps cap).history device = (ps.drop k).reverse
    ∧ ((push_all st device ps cap).history device).length = cap := by
  have h0 : (st.history device).length ≤ cap := by rw [hinit]; simp
  have hq := push_all_history device cap hcap qs st h0
  have hp := push_all_history device cap hcap ps st h0
  rw [hinit] at hq hp
  simp only [List.append_nil] at hq hp
  have hdrop : ps.reverse.take cap = (ps.drop k).reverse := by
    have hsplit : ps.reverse = (ps.drop k).reverse ++ (ps.take k).reverse := by
      rw [← List.reverse_append, List.take_append_drop]
    have hlen2 : ((ps.drop k).reverse).length = cap := by
      rw [List.length_reverse, List.length_drop, hlen]; omega
    rw [hsplit, List.take_left' hlen2]
  refine ⟨?_, ?_, ?_⟩
  · rw [hq]; simp
  · rw [hp, hdrop]
  · rw [hp, hdrop, List.length_reverse, List.length_drop, hlen]; omega

/-- History entries used to instantiate the cap theorem. -/
def e1 : HistoryEntry := { event := "e1", ts := "1" }

/-- Second sample history entry. -/
def e2 : HistoryEntry := { event := "e2", ts := "2" }

/-- Third sample history entry. -/
def e3 : HistoryEntry := { event := "e3", ts := "3" }

/-- Fourth sample history entry. -/
def e4 : HistoryEntry := { event := "e4", ts := "4" }

/-- Witness for C4 at cap 2, k 1: pushing three entries keeps the two
most recent, newest first. -/
theorem push_history_cap_bound_witness :
    (1 ≤ 2) ∧ (emptyStore.history "D1" = [])
    ∧ (([e1, e2, e3] : List HistoryEntry).length = 2 + 1) ∧ (1 ≤ 1)
    ∧ (((push_all emptyStore "D1" [e1, e2, e3, e4] 2).history "D1").length ≤ 2
       ∧ (push_all emptyStore "D1" [e1, e2, e3] 2).history "D1"
           = (([e1, e2, e3] : List HistoryEntry).drop 1).reverse
       ∧ ((push_all emptyStore "D1" [e1, e2, e3] 2).history "D1").length = 2) :=
  ⟨by decide, by decide, by decide, by decide,
   push_history_cap_bound emptyStore "D1" 2 1 [e1, e2, e3] [e1, e2, e3, e4]
     (by decide) (by decide) (by decide) (by decide)⟩

/-- C9: a device with no stored latest record gets HTTP 404 from both
mark_safe (with the store left unchanged) and get_location (no default
record is fabricated). -/
theorem missing_device_not_found (st : Store) (device : String)
    (tok : Option String) (now : String)
    (h : st.latest device = none) :
    mark_safe st device tok now = (.notFound, st)
    ∧ get_location st device = none := by
  constructor
  · simp [mark_safe, get_latest, h]
  · simp [get_location, get_latest, h]

/-- Witness for C9: device D2 never reported in the example store. -/
theorem missing_device_not_found_witness :
    (exStore.latest "D2" = none)
    ∧ (mark_safe exStore "D2" (some "tok1") "T1" = (.notFound, exStore)
       ∧ get_location exStore "D2" = none) :=
  ⟨by decide, missing_device_not_found exStore "D2" (some "tok1") "T1" (by decide)⟩

/-- C10: mark_safe on an existing record with no auth token skips the
token check entirely: it succeeds, sets status safe and the new
timestamp, and leaves every token mapping untouched. -/
theorem mark_safe_without_token (st : Store) (device now : String) (r0 : Record)
    (h : st.latest device = some r0) :
    (mark_safe st device none now).1 = .ok
    ∧ (mark_safe st device none now).2.latest device
        = some { r0 with status := some "safe", timestamp := some now }
    ∧ (mark_safe st device none now).2.tokens = st.tokens := by
  simp [mark_safe, get_latest, h, finish_mark_safe, set_latest, push_history]

/-- Witness for C10 on the example store. -/
theorem mark_safe_without_token_witness :
    (exStore.latest "D1" = some exRec)
    ∧ ((mark_safe exStore "D1" none "T1").1 = .ok
       ∧ (mark_safe exStore "D1" none "T1").2.latest "D1"
           = some { exRec with status := some "safe", timestamp := some "T1" }
       ∧ (mark_safe exStore "D1" none "T1").2.tokens = exStore.tokens) :=
  ⟨by decide, mark_safe_without_token exStore "D1" "T1" exRec (by decide)⟩

/-- C2 counterexample: the upload endpoint does not force status active —
for a device already marked safe, a location upload writes the new
coordinates but keeps status safe (latest.get with default touches the
status key only when it is absent). -/
theorem upload_forces_active_refuted :
    latest_status
        (upload_with_location exSafeStore "D1" (some 12) (some 77) "T1" none "u") "D1"
      = some "safe"
    ∧ latest_status
        (upload_with_location exSafeStore "D1" (some 12) (some 77) "T1" none "u") "D1"
      ≠ some "active" := by decide

/-- C2 amended: a location upload on a record whose status is safe writes
the new coordinates and timestamp but preserves the safe status; status
is only defaulted to active when the record has no status yet. -/
theorem upload_preserves_safe_status (st : Store) (device ts u : String)
    (la lo : Rat) (r0 : Record)
    (hrec : st.latest device = some r0) (hsafe : r0.status = some "safe") :
    (upload_with_location st device (some la) (some lo) ts none u).latest device
      = some { r0 with timestamp := some ts, status := some "safe", lat := some la, lon := some lo }
    ∧ latest_status
        (upload_with_location st device (some la) (some lo) ts none u) device
      = some "safe" := by
  simp [upload_with_location, get_latest, hrec, hsafe, set_latest, push_history,
        latest_status]

/-- Witness for the amended C2 on the safe-device example store. -/
theorem upload_preserves_safe_status_witness :
    (exSafeStore.latest "D1"
       = some { lat := some 1, lon := some 2, timestamp := some "T0",
                status := some "safe" })
    ∧ (({ lat := some 1, lon := some 2, timestamp := some "T0",
          status := some "safe" } : Record).status = some "safe")
    ∧ ((upload_with_location exSafeStore "D1" (some 12) (some 77) "T2" none "u").latest "D1"
         = some { ({ lat := some 1, lon := some 2, timestamp := some "T0", status := some "safe" } : Record) with timestamp := some "T2", status := some "safe", lat := some 12, lon := some 77 }
       ∧ latest_status
           (upload_with_location exSafeStore "D1" (some 12) (some 77) "T2" none "u") "D1"
         = some "safe") :=
  ⟨by decide, by decide,
   upload_preserves_safe_status exSafeStore "D1" "T2" "u" 12 77
     { lat := some 1, lon := some 2, timestamp := some "T0", status := some "safe" }
     (by decide) (by decide)⟩

/-- C3: ingesting a free-text event that carries a valid token and no
coordinates leaves the stored lat and lon unchanged and sets status
active (webhook_sms copies lat and lon forward from the current record). -/
theorem webhook_preserves_coordinates (st : Store) (raw : String)
    (sender : Option String) (ts tok device : String) (r0 : Record) (L N : Rat)
    (hfind : re_token_search raw.data = some tok)
    (hmap : st.tokens tok = some device)
    (hrec : st.latest device = some r0)
    (hlat : r0.lat = some L) (hlon : r0.lon = some N) :
    (webhook_sms st raw sender ts false).1 = .okDevice device
    ∧ latest_lat (webhook_sms st raw sender ts false).2 device = some L
    ∧ latest_lon (webhook_sms st raw sender ts false).2 device = some N
    ∧ latest_status (webhook_sms st raw sender ts false).2 device = some "active" := by
  simp [webhook_sms, hfind, hmap, get_latest, hrec, set_latest, push_history,
        latest_lat, latest_lon, latest_status, hlat, hlon]

/-- Witness for C3: device D1 at (12, 77), SMS carrying token tok1. -/
theorem webhook_preserves_coordinates_witness :
    (re_token_search "SOS https://x/track?token=tok1".data = some "tok1")
    ∧ (exStore.tokens "tok1" = some "D1")
    ∧ (exStore.latest "D1" = some exRec)
    ∧ (exRec.lat = some 12) ∧ (exRec.lon = some 77)
    ∧ ((webhook_sms exStore "SOS https://x/track?token=tok1" (some "+91") "T1" false).1
         = .okDevice "D1"
       ∧ latest_lat (webhook_sms exStore "SOS https://x/track?token=tok1"
           (some "+91") "T1" false).2 "D1" = some 12
       ∧ latest_lon (webhook_sms exStore "SOS https://x/track?token=tok1"
           (some "+91") "T1" false).2 "D1" = some 77
       ∧ latest_status (webhook_sms exStore "SOS https://x/track?token=tok1"
           (some "+91") "T1" false).2 "D1" = some "active") :=
  ⟨by decide, by decide, by decide, by decide, by decide,
   webhook_preserves_coordinates exStore "SOS https://x/track?token=tok1"
     (some "+91") "T1" "tok1" "D1" exRec 12 77
     (by decide) (by decide) (by decide) (by decide) (by decide)⟩

/-- C5: the token lookup of free-text ingestion is non-destructive: a
successful webhook_sms run leaves the whole token mapping untouched, and
re-ingesting the identical SMS matches the same device again. -/
theorem webhook_token_read_nondestructive (st : Store) (raw : String)
    (sender : Option String) (ts ts2 d : String)
    (hok : (webhook_sms st raw sender ts false).1 = .okDevice d) :
    (webhook_sms st raw sender ts false).2.tokens = st.tokens
    ∧ (webhook_sms (webhook_sms st raw sender ts false).2 raw sender ts2 false).1
        = .okDevice d := by
  obtain ⟨tok, hf, hm⟩ := webhook_ok_elim st raw sender ts d hok
  constructor
  · simp [webhook_sms, hf, hm, set_latest, push_history]
  · simp [webhook_sms, hf, hm, set_latest, push_history]

/-- Witness for C5 on the example store. -/
theorem webhook_token_read_nondestructive_witness :
    ((webhook_sms exStore "SOS https://x/track?token=tok1" (some "+91") "T1" false).1
       = .okDevice "D1")
    ∧ ((webhook_sms exStore "SOS https://x/track?token=tok1" (some "+91") "T1" false).2.tokens
         = exStore.tokens
       ∧ (webhook_sms
           (webhook_sms exStore "SOS https://x/track?token=tok1" (some "+91") "T1" false).2
           "SOS https://x/track?token=tok1" (some "+91") "T2" false).1
         = .okDevice "D1") :=
  ⟨by decide,
   webhook_token_read_nondestructive exStore "SOS https://x/track?token=tok1"
     (some "+91") "T1" "T2" "D1" (by decide)⟩

/-- C7 counterexample: with token tok1 validly bound to D1, a failing
store read inside webhook_sms is not surfaced: the handler answers
"unknown token" and quarantines the event instead of propagating the
failure. -/
theorem webhook_store_failure_masked_refuted :
    exStore.tokens "tok1" = some "D1"
    ∧ (webhook_sms exStore "go https://x/t?token=tok1" (some "+91") "T1" true).1
        = .unknownToken
    ∧ (webhook_sms exStore "go https://x/t?token=tok1" (some "+91") "T1" true).2.quarantine
        = [{ raw := "go https://x/t?token=tok1", sender := some "+91", ts := "T1",
             token := some "tok1" }] := by decide

/-- C7 amended: the token-mapping read inside webhook_sms is wrapped in a
bare except that converts any store failure into device None, so the
event is handled exactly like an unknown token: quarantined (with the
extracted token) and answered ok False — the failure is masked, not
propagated.  (The other handlers run their store calls without a handler
and so do propagate store failures to the transport layer.) -/
theorem webhook_store_failure_masked (st : Store) (raw : String)
    (sender : Option String) (ts tok : String)
    (hfind : re_token_search raw.data = some tok) :
    webhook_sms st raw sender ts true
      = (.unknownToken,
         { st with quarantine :=
             { raw := raw, sender := sender, ts := ts,
               token := some tok } :: st.quarantine }) := by
  simp [webhook_sms, hfind]

/-- Witness for the amended C7. -/
theorem webhook_store_failure_masked_witness :
    (re_token_search "go https://x/t?token=tok1".data = some "tok1")
    ∧ (webhook_sms exStore "go https://x/t?token=tok1" (some "+91") "T1" true
         = (.unknownToken,
            { exStore with quarantine :=
                [{ raw := "go https://x/t?token=tok1", sender := some "+91",
                   ts := "T1", token := some "tok1" }] })) :=
  ⟨by decide,
   webhook_store_failure_masked exStore "go https://x/t?token=tok1"
     (some "+91") "T1" "tok1" (by decide)⟩

/-- C8: a free-text event that webhook_sms cannot map to a device — no
token pattern in the body, or an extracted token with no bound device —
is answered not-matched and exactly one quarantine entry is prepended,
carrying the raw text, sender, timestamp and the extracted token when one
was present; latest records, histories and token mappings are untouched,
so the event is quarantined rather than silently discarded. -/
theorem webhook_quarantine_append (st : Store) (raw : String)
    (sender : Option String) (ts : String)
    (h : webhook_device_lookup st raw = none) :
    ((webhook_sms st raw sender ts false).1 = .noToken
      ∨ (webhook_sms st raw sender ts false).1 = .unknownToken)
    ∧ (webhook_sms st raw sender ts false).2.quarantine
        = { raw := raw, sender := sender, ts := ts,
            token := re_token_search raw.data } :: st.quarantine
    ∧ (webhook_sms st raw sender ts false).2.latest = st.latest
    ∧ (webhook_sms st raw sender ts false).2.history = st.history
    ∧ (webhook_sms st raw sender ts false).2.tokens = st.tokens := by
  cases hf : re_token_search raw.data with
  | none => simp [webhook_sms, hf]
  | some tok =>
      have hm : st.tokens tok = none := by
        simpa [webhook_device_lookup, hf] using h
      simp [webhook_sms, hf, hm]

/-- Witness for C8: a body with no tracking link. -/
theorem webhook_quarantine_append_witness :
    (webhook_device_lookup exStore "no link here" = none)
    ∧ (((webhook_sms exStore "no link here" (some "+91") "T1" false).1 = .noToken
         ∨ (webhook_sms exStore "no link here" (some "+91") "T1" false).1
             = .unknownToken)
       ∧ (webhook_sms exStore "no link here" (some "+91") "T1" false).2.quarantine
           = { raw := "no link here", sender := some "+91", ts := "T1",
               token := re_token_search "no link here".data } :: exStore.quarantine
       ∧ (webhook_sms exStore "no link here" (some "+91") "T1" false).2.latest
           = exStore.latest
       ∧ (webhook_sms exStore "no link here" (some "+91") "T1" false).2.history
           = exStore.history
       ∧ (webhook_sms exStore "no link here" (some "+91") "T1" false).2.tokens
           = exStore.tokens) :=
  ⟨by decide,
   webhook_quarantine_append exStore "no link here" (some "+91") "T1" (by decide)⟩

/-- The audio_url field of the stored latest record of a device. -/
def latest_audio_url (st : Store) (device : String) : Option String :=
  (st.latest device).bind fun r => r.audio_url

/-- C1: token redemption is single-use.  Once consume_token has returned
the bound device for t, a further consume_token on t returns none (the
Lua script deleted the key); consequently, after a mark_safe that
redeemed t succeeded for a device, a second mark_safe for the same device
presenting the same t fails with HTTP 401 invalid auth token. -/
theorem consume_token_single_use (st : Store) (t d D now now2 : String)
    (hred : (consume_token st t).1 = some d)
    (ht : t ≠ "")
    (hok : (mark_safe st D (some t) now).1 = .ok) :
    (consume_token (consume_token st t).2 t).1 = none
    ∧ (mark_safe (mark_safe st D (some t) now).2 D (some t) now2).1
        = .invalidToken := by
  cases hm : st.tokens t with
  | none => simp [consume_token, hm] at hred
  | some v =>
      refine ⟨by simp [consume_token, hm], ?_⟩
      cases hrec : st.latest D with
      | none => simp [mark_safe, get_latest, hrec] at hok
      | some r0 =>
          by_cases hv : v = D
          · subst hv
            simp [mark_safe, get_latest, hrec, ht, consume_token, hm,
                  finish_mark_safe, set_latest, push_history]
          · exfalso
            simp [mark_safe, get_latest, hrec, ht, consume_token, hm, hv] at hok

/-- Witness for C1 on the example store: tok1 is bound to D1. -/
theorem consume_token_single_use_witness :
    ((consume_token exStore "tok1").1 = some "D1")
    ∧ ("tok1" ≠ "")
    ∧ ((mark_safe exStore "D1" (some "tok1") "T1").1 = .ok)
    ∧ ((consume_token (consume_token exStore "tok1").2 "tok1").1 = none
       ∧ (mark_safe (mark_safe exStore "D1" (some "tok1") "T1").2 "D1"
           (some "tok1") "T2").1 = .invalidToken) :=
  ⟨by decide, by decide, by decide,
   consume_token_single_use exStore "tok1" "D1" "D1" "T1" "T2"
     (by decide) (by decide) (by decide)⟩

/-- C6 counterexample: replaying the identical audio-upload event (same
device, same timestamp, same file payload) does not reproduce the same
latest record: each delivery saves the file under a fresh
secrets.token_urlsafe name and overwrites audio_url with it. -/
theorem audio_replay_changes_latest :
    latest_audio_url
        (upload_with_location emptyStore "D1" none none "T1" (some "a.webm") "u1")
        "D1" = some "/static/audio/D1_u1.webm"
    ∧ latest_audio_url
        (upload_with_location
          (upload_with_location emptyStore "D1" none none "T1" (some "a.webm") "u1")
          "D1" none none "T1" (some "a.webm") "u2") "D1"
        = some "/static/audio/D1_u2.webm"
    ∧ (upload_with_location
          (upload_with_location emptyStore "D1" none none "T1" (some "a.webm") "u1")
          "D1" none none "T1" (some "a.webm") "u2").latest "D1"
        ≠ (upload_with_location emptyStore "D1" none none "T1"
            (some "a.webm") "u1").latest "D1" := by decide

/-- C6 amended: replaying the identical (device, timestamp, payload) is
idempotent on the stored latest record — and each replay appends a
further duplicate history entry (under the cap-1000 truncation) — for
free-text SMS ingestion, for a location upload without an audio file, and
for mark_safe without an auth token (with the server clock held fixed).
Audio uploads are excluded: each delivery stores the file under a fresh
random name, so a replay changes audio_url (see the counterexample); and
a token-bearing mark_safe replay is rejected by the single-use token
rule before touching record or history. -/
theorem replay_idempotent_amended (st : Store) (raw : String)
    (sender : Option String) (ts ts2 now u u2 d dev dev2 : String)
    (la lo : Rat) (r0 : Record)
    (hok : (webhook_sms st raw sender ts false).1 = .okDevice d)
    (hrec : st.latest dev2 = some r0) :
    ((webhook_sms (webhook_sms st raw sender ts false).2 raw sender ts false).2.latest d
        = (webhook_sms st raw sender ts false).2.latest d)
    ∧ ((webhook_sms (webhook_sms st raw sender ts false).2 raw sender ts false).2.history d
        = (({ event := "sos_via_link", ts := ts, sender := sender } : HistoryEntry)
            :: (webhook_sms st raw sender ts false).2.history d).take 1000)
    ∧ ((upload_with_location (upload_with_location st dev (some la) (some lo) ts2 none u)
          dev (some la) (some lo) ts2 none u2).latest dev
        = (upload_with_location st dev (some la) (some lo) ts2 none u).latest dev)
    ∧ ((upload_with_location (upload_with_location st dev (some la) (some lo) ts2 none u)
          dev (some la) (some lo) ts2 none u2).history dev
        = (({ event := "location_update", ts := ts2, lat := some la, lon := some lo } : HistoryEntry)
            :: (upload_with_location st dev (some la) (some lo) ts2 none u).history dev).take 1000)
    ∧ ((mark_safe (mark_safe st dev2 none now).2 dev2 none now).1 = .ok)
    ∧ ((mark_safe (mark_safe st dev2 none now).2 dev2 none now).2.latest dev2
        = (mark_safe st dev2 none now).2.latest dev2)
    ∧ ((mark_safe (mark_safe st dev2 none now).2 dev2 none now).2.history dev2
        = (({ event := "marked_safe", ts := now } : HistoryEntry)
            :: (mark_safe st dev2 none now).2.history dev2).take 1000) := by
  obtain ⟨tok, hf, hm⟩ := webhook_ok_elim st raw sender ts d hok
  refine ⟨?_, ?_, ?_, ?_, ?_, ?_, ?_⟩
  · simp [webhook_sms, hf, hm, get_latest, set_latest, push_history]
  · simp [webhook_sms, hf, hm, get_latest, set_latest, push_history]
  · simp [upload_with_location, get_latest, set_latest, push_history]
  · simp [upload_with_location, get_latest, set_latest, push_history]
  · simp [mark_safe, get_latest, hrec, finish_mark_safe, set_latest, push_history]
  · simp [mark_safe, get_latest, hrec, finish_mark_safe, set_latest, push_history]
  · simp [mark_safe, get_latest, hrec, finish_mark_safe, set_latest, push_history]

/-- Witness for the amended C6: replays on the example store of the SMS
ingestion for D1, a location upload for D9, and a token-free mark_safe
for D1, each idempotent on the latest record. -/
theorem replay_idempotent_amended_witness :
    ((webhook_sms exStore "SOS https://x/track?token=tok1" (some "+91") "T1" false).1
       = .okDevice "D1")
    ∧ (exStore.latest "D1" = some exRec)
    ∧ (((webhook_sms (webhook_sms exStore "SOS https://x/track?token=tok1" (some "+91") "T1" false).2
            "SOS https://x/track?token=tok1" (some "+91") "T1" false).2.latest "D1"
          = (webhook_sms exStore "SOS https://x/track?token=tok1" (some "+91") "T1" false).2.latest "D1")
       ∧ ((webhook_sms (webhook_sms exStore "SOS https://x/track?token=tok1" (some "+91") "T1" false).2
            "SOS https://x/track?token=tok1" (some "+91") "T1" false).2.history "D1"
          = (({ event := "sos_via_link", ts := "T1", sender := some "+91" } : HistoryEntry)
              :: (webhook_sms exStore "SOS https://x/track?token=tok1" (some "+91") "T1" false).2.history "D1").take 1000)
       ∧ ((upload_with_location (upload_with_location exStore "D9" (some 1) (some 2) "T2" none "u1")
            "D9" (some 1) (some 2) "T2" none "u2").latest "D9"
          = (upload_with_location exStore "D9" (some 1) (some 2) "T2" none "u1").latest "D9")
       ∧ ((upload_with_location (upload_with_location exStore "D9" (some 1) (some 2) "T2" none "u1")
            "D9" (some 1) (some 2) "T2" none "u2").history "D9"
          = (({ event := "location_update", ts := "T2", lat := some 1, lon := some 2 } : HistoryEntry)
              :: (upload_with_location exStore "D9" (some 1) (some 2) "T2" none "u1").history "D9").take 1000)
       ∧ ((mark_safe (mark_safe exStore "D1" none "T3").2 "D1" none "T3").1 = .ok)
       ∧ ((mark_safe (mark_safe exStore "D1" none "T3").2 "D1" none "T3").2.latest "D1"
          = (mark_safe exStore "D1" none "T3").2.latest "D1")
       ∧ ((mark_safe (mark_safe exStore "D1" none "T3").2 "D1" none "T3").2.history "D1"
          = (({ event := "marked_safe", ts := "T3" } : HistoryEntry)
              :: (mark_safe exStore "D1" none "T3").2.history "D1").take 1000)) :=
  ⟨by decide, by decide,
   replay_idempotent_amended exStore "SOS https://x/track?token=tok1" (some "+91")
     "T1" "T2" "T3" "u1" "u2" "D1" "D9" "D1" 1 2 exRec (by decide) (by decide)⟩
